import Mathlib

/-!
Shallow embedding of the AI-enrichment pipeline of `src/main.py`
(art-app-server): the executor `process_ai_logic`, its conditional
("safe mode") and unconditional ("force mode") SQL updates on the two
derived fields `ai_summary` and `music_prompt`, and the two sweep paths
(`sync_missing_ai_data` endpoint and `periodic_sync_task` loop body).

Modelling conventions:
* A SQL text column value is `Option String` (`none` = SQL NULL).
* The `posts` table is a list of `(id, row)` pairs; `SELECT ... WHERE
  id = %s ... fetchone()` is first-match lookup, `UPDATE ... WHERE ...`
  maps over all matching rows.
* The Gemini adapters `run_gemini_vision` / `run_gemini_music` catch all
  their own exceptions and return a parsed JSON object or `None`; they
  are modelled by their returned value (`Option JsonObj`, a JSON object
  being a string-keyed association list of string values).  The
  arguments they alone consume (`image_url`, `title`, `artist`, `genre`,
  `style1`) are therefore not threaded through the executor model.
* A store-write failure (a raising `cursor.execute`/`conn.commit`) is
  modelled by a boolean per write site; a failing write leaves the store
  unchanged (uncommitted transaction) and raises, which the single
  `try/except` around the body of `process_ai_logic` catches, aborting
  the rest of the body.
* Concurrent writers racing with one invocation are modelled by store
  transformations applied between the invocation-time read and each
  write site (`process_ai_logic_race`); the plain `process_ai_logic`
  is the race-free instance.
-/

namespace ArtApp

/-- A parsed JSON object (a Python `dict` with string values), as an
association list.  Python dict truthiness is emptiness of the list. -/
abbrev JsonObj := List (String × String)

/-- Python `d.get(k)`: first binding of key `k`, if any. -/
def jget (o : JsonObj) (k : String) : Option String :=
  match o with
  | [] => none
  | kv :: rest => if kv.1 == k then some kv.2 else jget rest k

/-- Python truthiness of a nullable DB text value:
`None` and `''` are falsy, every other string is truthy. -/
def truthy : Option String → Bool
  | none => false
  | some s => !(s == "")

/-- The SQL guard predicate `field IS NULL OR field = ''` used by the
safe-mode conditional updates. -/
def sqlEmpty : Option String → Bool
  | none => true
  | some s => s == ""

/-- Python `x or d` on a nullable string against a string default. -/
def pyOrStr (x : Option String) (d : String) : String :=
  match x with
  | none => d
  | some s => if s == "" then d else s

/-- One row of the `posts` table (the columns this pipeline reads or
writes; the remaining metadata columns are consumed only by the
Gemini adapters, which are modelled by their results). -/
structure Post where
  image_url : String
  title : String
  artist_name : String
  genre : Option String
  style1 : Option String
  description : Option String
  tags : Option String
  ai_summary : Option String
  music_prompt : Option String
  music_url : Option String
deriving Repr, DecidableEq

/-- The `posts` table: rows keyed by `id`. -/
abbrev Store := List (Nat × Post)

/-- Embeds `SELECT ... FROM posts WHERE id = %s` + `fetchone()`. -/
def lookupPost (s : Store) (post_id : Nat) : Option Post :=
  match s with
  | [] => none
  | r :: rest => if r.1 == post_id then some r.2 else lookupPost rest post_id

/-- Skeleton of `UPDATE posts SET ... WHERE id = %s`: apply `h` to every
row whose key matches (row keys are never changed by an update). -/
def updRow (post_id : Nat) (h : Post → Post) (s : Store) : Store :=
  s.map (fun r => (r.1, if r.1 == post_id then h r.2 else r.2))

/-- Embeds `UPDATE posts SET ai_summary = %s WHERE id = %s`. -/
def updateSummaryUncond (s : Store) (post_id : Nat) (v : Option String) : Store :=
  updRow post_id (fun p => { p with ai_summary := v }) s

/-- Embeds `UPDATE posts SET ai_summary = %s WHERE id = %s AND (ai_summary IS
NULL OR ai_summary = '')`. -/
def updateSummaryCond (s : Store) (post_id : Nat) (v : Option String) : Store :=
  updRow post_id (fun p => if sqlEmpty p.ai_summary then { p with ai_summary := v } else p) s

/-- Embeds `UPDATE posts SET music_prompt = %s WHERE id = %s`. -/
def updateMusicUncond (s : Store) (post_id : Nat) (v : Option String) : Store :=
  updRow post_id (fun p => { p with music_prompt := v }) s

/-- Embeds `UPDATE posts SET music_prompt = %s WHERE id = %s AND (music_prompt
IS NULL OR music_prompt = '')`. -/
def updateMusicCond (s : Store) (post_id : Nat) (v : Option String) : Store :=
  updRow post_id (fun p => if sqlEmpty p.music_prompt then { p with music_prompt := v } else p) s

/-- Step 1 of `process_ai_logic` (the vision / `ai_summary` block),
given the cached `current_data['ai_summary']` from the invocation-time
read.  `.error st` models the write raising (`wfail1`), to be caught by
the handler around the whole body; `.ok` carries the store and the
(possibly updated) cached summary. -/
def visionStep (post_id : Nat) (force_update : Bool) (cache : Option String)
    (vision_res : Option JsonObj) (wfail1 : Bool) (s : Store) :
    Except Store (Store × Option String) :=
  if !truthy cache || force_update then
    match vision_res with
    | some vr =>
      if vr.isEmpty then .ok (s, cache)
      else
        let summary := (jget vr "art_review").getD ""
        if wfail1 then .error s
        else
          let s2 := if force_update then updateSummaryUncond s post_id (some summary)
                    else updateSummaryCond s post_id (some summary)
          .ok (s2, some summary)
    | none => .ok (s, cache)
  else .ok (s, cache)

/-- Step 2 of `process_ai_logic` (the music / `music_prompt` block).
Returns the final store and `some desc_text` when `run_gemini_music`
was invoked (with that source text), `none` when the block was skipped.
A failing write (`wfail2`) raises after the Gemini call; caught by the
surrounding handler, it leaves the store as it was. -/
def musicStep (post_id : Nat) (description : Option String) (force_update : Bool)
    (cacheMusic : Option String) (music_res : Option JsonObj) (wfail2 : Bool)
    (s : Store) (cacheSummary : Option String) : Store × Option String :=
  if !truthy cacheMusic || force_update then
    let desc_text := pyOrStr description (pyOrStr cacheSummary "예술 작품")
    match music_res with
    | some mr =>
      if mr.isEmpty then (s, some desc_text)
      else
        let prompt := jget mr "music_prompt"
        if wfail2 then (s, some desc_text)
        else
          let s3 := if force_update then updateMusicUncond s post_id prompt
                    else updateMusicCond s post_id prompt
          (s3, some desc_text)
    | none => (s, some desc_text)
  else (s, none)

/-- Observable events of one `process_ai_logic` invocation:
whether each Gemini adapter was called, the `desc_text` source string
and the `tag_text` passed to `run_gemini_music`. -/
structure Trace where
  visionCalled : Bool
  musicCalled : Bool
  musicSource : Option String
  musicTags : Option String
deriving Repr, DecidableEq

/-- Embeds `process_ai_logic` with explicit interference points: `f1` is the
store activity of concurrent writers between the invocation-time read
and the summary write site, `f2` the same for the music write site. -/
def process_ai_logic_race (f1 f2 : Store → Store) (s : Store) (post_id : Nat)
    (description tags : Option String) (force_update : Bool)
    (vision_res music_res : Option JsonObj) (wfail1 wfail2 : Bool) :
    Store × Trace :=
  match lookupPost s post_id with
  | none => (s, ⟨false, false, none, none⟩)
  | some current =>
    let vc := !truthy current.ai_summary || force_update
    match visionStep post_id force_update current.ai_summary vision_res wfail1 (f1 s) with
    | .error sAbort => (sAbort, ⟨vc, false, none, none⟩)
    | .ok (s1, cacheSummary) =>
      let out := musicStep post_id description force_update
          current.music_prompt music_res wfail2 (f2 s1) cacheSummary
      (out.1, ⟨vc, out.2.isSome, out.2, out.2.map (fun _ => pyOrStr tags "")⟩)

/-- Embeds `process_ai_logic(post_id, ..., force_update)` of `src/main.py`
(race-free instance), parameterised over the Gemini adapter results and
the two write-failure flags. -/
def process_ai_logic (s : Store) (post_id : Nat)
    (description tags : Option String) (force_update : Bool)
    (vision_res music_res : Option JsonObj) (wfail1 wfail2 : Bool) :
    Store × Trace :=
  process_ai_logic_race id id s post_id description tags force_update
    vision_res music_res wfail1 wfail2

/-- Embeds `SELECT * FROM posts WHERE ai_summary IS NULL OR music_prompt IS
NULL` (the selection both sweep paths use). -/
def sweepSelect (s : Store) : List (Nat × Post) :=
  s.filter (fun r => r.2.ai_summary.isNone || r.2.music_prompt.isNone)

/-- Per-invocation environment of one `process_ai_logic` call during a
sweep: the two Gemini adapter results and the write-failure flags. -/
structure Env where
  vision : Option JsonObj
  music : Option JsonObj
  wfail1 : Bool
  wfail2 : Bool

/-- The sweep `for` loop over the selected rows: invoke
`process_ai_logic(..., False)` on each in order, threading the store and
recording each record's trace. -/
def sweepFold (O : Nat → Env) (acc : Store × List (Nat × Trace)) :
    List (Nat × Post) → Store × List (Nat × Trace)
  | [] => acc
  | r :: rest =>
    let e := O r.1
    let out := process_ai_logic acc.1 r.1 r.2.description r.2.tags false
        e.vision e.music e.wfail1 e.wfail2
    sweepFold O (out.1, acc.2 ++ [(r.1, out.2)]) rest

/-- The shared sweep-cycle body: select all rows with a NULL derived
field, then loop `process_ai_logic(..., False)` over them. -/
def sweepOnce (s : Store) (O : Nat → Env) : Store × List (Nat × Trace) :=
  sweepFold O (s, []) (sweepSelect s)

/-- The `POST /posts/sync-ai` endpoint body (`sync_missing_ai_data`). -/
def sync_missing_ai_data (s : Store) (O : Nat → Env) : Store × List (Nat × Trace) :=
  sweepOnce s O

/-- One iteration of the `periodic_sync_task` 30-second loop. -/
def periodic_sync_cycle (s : Store) (O : Nat → Env) : Store × List (Nat × Trace) :=
  sweepOnce s O

/-- The `ai_summary` column of row `post_id`, when the row exists. -/
def summaryAt (s : Store) (post_id : Nat) : Option (Option String) :=
  (lookupPost s post_id).map Post.ai_summary

/-- The `music_prompt` column of row `post_id`, when the row exists. -/
def musicAt (s : Store) (post_id : Nat) : Option (Option String) :=
  (lookupPost s post_id).map Post.music_prompt

/-- One safe-mode (`force=False`) invocation's caller-chosen inputs,
for iterated-invocation statements. -/
structure CallArgs where
  description : Option String
  tags : Option String
  vision : Option JsonObj
  music : Option JsonObj
  wfail1 : Bool
  wfail2 : Bool

/-- A sequence of safe-mode `process_ai_logic` invocations on one id. -/
def enrichSeq (s : Store) (post_id : Nat) (calls : List CallArgs) : Store :=
  calls.foldl
    (fun st c =>
      (process_ai_logic st post_id c.description c.tags false
        c.vision c.music c.wfail1 c.wfail2).1)
    s

/-! ### Store-level lemmas -/

theorem lookupPost_updRow (s : Store) (i j : Nat) (h : Post → Post) :
    lookupPost (updRow i h s) j
      = (lookupPost s j).map (fun p => if j == i then h p else p) := by
  induction s with
  | nil => rfl
  | cons r rest ih =>
    simp only [updRow, List.map_cons, lookupPost]
    by_cases hr : r.1 = j
    · subst hr; simp
    · have hb : (r.1 == j) = false := by simp [hr]
      simp only [hb, if_false]
      exact ih

theorem summaryAt_updateSummaryCond_self (s : Store) (i : Nat) (v : Option String) :
    summaryAt (updateSummaryCond s i v) i
      = (summaryAt s i).map (fun a => if sqlEmpty a then v else a) := by
  cases hl : lookupPost s i with
  | none => simp [summaryAt, updateSummaryCond, lookupPost_updRow, hl]
  | some p =>
    cases h : sqlEmpty p.ai_summary <;>
      simp [summaryAt, updateSummaryCond, lookupPost_updRow, hl, h]

theorem summaryAt_updateSummaryUncond_self (s : Store) (i : Nat) (v : Option String) :
    summaryAt (updateSummaryUncond s i v) i = (summaryAt s i).map (fun _ => v) := by
  cases hl : lookupPost s i with
  | none => simp [summaryAt, updateSummaryUncond, lookupPost_updRow, hl]
  | some p => simp [summaryAt, updateSummaryUncond, lookupPost_updRow, hl]

theorem musicAt_updateMusicCond_self (s : Store) (i : Nat) (v : Option String) :
    musicAt (updateMusicCond s i v) i
      = (musicAt s i).map (fun a => if sqlEmpty a then v else a) := by
  cases hl : lookupPost s i with
  | none => simp [musicAt, updateMusicCond, lookupPost_updRow, hl]
  | some p =>
    cases h : sqlEmpty p.music_prompt <;>
      simp [musicAt, updateMusicCond, lookupPost_updRow, hl, h]

theorem musicAt_updateMusicUncond_self (s : Store) (i : Nat) (v : Option String) :
    musicAt (updateMusicUncond s i v) i = (musicAt s i).map (fun _ => v) := by
  cases hl : lookupPost s i with
  | none => simp [musicAt, updateMusicUncond, lookupPost_updRow, hl]
  | some p => simp [musicAt, updateMusicUncond, lookupPost_updRow, hl]

theorem summaryAt_updateMusicCond (s : Store) (i j : Nat) (v : Option String) :
    summaryAt (updateMusicCond s i v) j = summaryAt s j := by
  simp only [summaryAt, updateMusicCond, lookupPost_updRow, Option.map_map]
  cases lookupPost s j with
  | none => rfl
  | some q =>
    by_cases hj : (j == i) = true
    · cases h : sqlEmpty q.music_prompt <;> simp [hj, h]
    · simp [hj]

theorem summaryAt_updateMusicUncond (s : Store) (i j : Nat) (v : Option String) :
    summaryAt (updateMusicUncond s i v) j = summaryAt s j := by
  simp only [summaryAt, updateMusicUncond, lookupPost_updRow, Option.map_map]
  cases lookupPost s j with
  | none => rfl
  | some q =>
    by_cases hj : (j == i) = true <;> simp [hj]

theorem musicAt_updateSummaryCond (s : Store) (i j : Nat) (v : Option String) :
    musicAt (updateSummaryCond s i v) j = musicAt s j := by
  simp only [musicAt, updateSummaryCond, lookupPost_updRow, Option.map_map]
  cases lookupPost s j with
  | none => rfl
  | some q =>
    by_cases hj : (j == i) = true
    · cases h : sqlEmpty q.ai_summary <;> simp [hj, h]
    · simp [hj]

theorem musicAt_updateSummaryUncond (s : Store) (i j : Nat) (v : Option String) :
    musicAt (updateSummaryUncond s i v) j = musicAt s j := by
  simp only [musicAt, updateSummaryUncond, lookupPost_updRow, Option.map_map]
  cases lookupPost s j with
  | none => rfl
  | some q =>
    by_cases hj : (j == i) = true <;> simp [hj]

/-! ### Step-level lemmas -/

theorem visionStep_skip (post_id : Nat) (cache : Option String) (vis : Option JsonObj)
    (w1 : Bool) (s : Store) (h : truthy cache = true) :
    visionStep post_id false cache vis w1 s = .ok (s, cache) := by
  simp [visionStep, h]

theorem visionStep_none (post_id : Nat) (f : Bool) (cache : Option String)
    (w1 : Bool) (s : Store) :
    visionStep post_id f cache none w1 s = .ok (s, cache) := by
  by_cases hc : (!truthy cache || f) = true <;> simp [visionStep, hc]

theorem visionStep_write_safe (post_id : Nat) (cache : Option String) (vr : JsonObj)
    (s : Store) (hc : truthy cache = false) (h : vr.isEmpty = false) :
    visionStep post_id false cache (some vr) false s
      = .ok (updateSummaryCond s post_id (some ((jget vr "art_review").getD "")),
             some ((jget vr "art_review").getD "")) := by
  simp [visionStep, hc, h]

theorem visionStep_write_force (post_id : Nat) (cache : Option String) (vr : JsonObj)
    (s : Store) (h : vr.isEmpty = false) :
    visionStep post_id true cache (some vr) false s
      = .ok (updateSummaryUncond s post_id (some ((jget vr "art_review").getD "")),
             some ((jget vr "art_review").getD "")) := by
  simp [visionStep, h]

theorem visionStep_abort (post_id : Nat) (f : Bool) (cache : Option String)
    (vr : JsonObj) (s : Store) (hc : (!truthy cache || f) = true)
    (h : vr.isEmpty = false) :
    visionStep post_id f cache (some vr) true s = .error s := by
  simp [visionStep, hc, h]

theorem visionStep_error_store {post_id : Nat} {f : Bool} {cache : Option String}
    {vis : Option JsonObj} {w1 : Bool} {s s1 : Store}
    (h : visionStep post_id f cache vis w1 s = .error s1) : s1 = s := by
  unfold visionStep at h
  split at h
  · split at h
    · split at h
      · exact (Except.noConfusion h)
      · split at h
        · simp only [Except.error.injEq] at h
          exact h.symm
        · exact (Except.noConfusion h)
    · exact (Except.noConfusion h)
  · exact (Except.noConfusion h)

theorem visionStep_ok_musicAt {post_id : Nat} {f : Bool} {cache : Option String}
    {vis : Option JsonObj} {w1 : Bool} {s s1 : Store} {c' : Option String}
    (h : visionStep post_id f cache vis w1 s = .ok (s1, c')) (j : Nat) :
    musicAt s1 j = musicAt s j := by
  unfold visionStep at h
  split at h
  · split at h
    · split at h
      · simp only [Except.ok.injEq, Prod.mk.injEq] at h
        obtain ⟨rfl, -⟩ := h
        rfl
      · split at h
        · exact (Except.noConfusion h)
        · simp only [Except.ok.injEq, Prod.mk.injEq] at h
          obtain ⟨rfl, -⟩ := h
          split
          · exact musicAt_updateSummaryUncond s post_id j _
          · exact musicAt_updateSummaryCond s post_id j _
    · simp only [Except.ok.injEq, Prod.mk.injEq] at h
      obtain ⟨rfl, -⟩ := h
      rfl
  · simp only [Except.ok.injEq, Prod.mk.injEq] at h
    obtain ⟨rfl, -⟩ := h
    rfl

theorem summaryAt_visionStep_safe_preserved {post_id : Nat} {cache : Option String}
    {vis : Option JsonObj} {w1 : Bool} {s s1 : Store} {c' : Option String} {b : String}
    (h : visionStep post_id false cache vis w1 s = .ok (s1, c'))
    (hb : summaryAt s post_id = some (some b)) (hbne : (b == "") = false) :
    summaryAt s1 post_id = some (some b) := by
  unfold visionStep at h
  split at h
  · split at h
    · split at h
      · simp only [Except.ok.injEq, Prod.mk.injEq] at h
        obtain ⟨rfl, -⟩ := h
        exact hb
      · split at h
        · exact (Except.noConfusion h)
        · simp only [Except.ok.injEq, Prod.mk.injEq] at h
          obtain ⟨rfl, -⟩ := h
          split
          · next hforce => exact absurd hforce (by simp)
          · rw [summaryAt_updateSummaryCond_self, hb]
            simp [sqlEmpty, hbne]
    · simp only [Except.ok.injEq, Prod.mk.injEq] at h
      obtain ⟨rfl, -⟩ := h
      exact hb
  · simp only [Except.ok.injEq, Prod.mk.injEq] at h
    obtain ⟨rfl, -⟩ := h
    exact hb

theorem musicStep_skip (post_id : Nat) (d : Option String) (cm : Option String)
    (mus : Option JsonObj) (w2 : Bool) (s : Store) (c : Option String)
    (h : truthy cm = true) :
    musicStep post_id d false cm mus w2 s c = (s, none) := by
  simp [musicStep, h]

theorem musicStep_none (post_id : Nat) (d : Option String) (f : Bool)
    (cm : Option String) (w2 : Bool) (s : Store) (c : Option String)
    (hc : (!truthy cm || f) = true) :
    musicStep post_id d f cm none w2 s c
      = (s, some (pyOrStr d (pyOrStr c "예술 작품"))) := by
  simp [musicStep, hc]

theorem musicStep_write_safe (post_id : Nat) (d : Option String)
    (cm : Option String) (mr : JsonObj) (s : Store) (c : Option String)
    (hc : truthy cm = false) (hm : mr.isEmpty = false) :
    musicStep post_id d false cm (some mr) false s c
      = (updateMusicCond s post_id (jget mr "music_prompt"),
         some (pyOrStr d (pyOrStr c "예술 작품"))) := by
  simp [musicStep, hc, hm]

theorem musicStep_write_force (post_id : Nat) (d : Option String)
    (cm : Option String) (mr : JsonObj) (s : Store) (c : Option String)
    (hm : mr.isEmpty = false) :
    musicStep post_id d true cm (some mr) false s c
      = (updateMusicUncond s post_id (jget mr "music_prompt"),
         some (pyOrStr d (pyOrStr c "예술 작품"))) := by
  simp [musicStep, hm]

theorem summaryAt_musicStep (post_id : Nat) (d : Option String) (f : Bool)
    (cm : Option String) (mus : Option JsonObj) (w2 : Bool) (s : Store)
    (c : Option String) (j : Nat) :
    summaryAt (musicStep post_id d f cm mus w2 s c).1 j = summaryAt s j := by
  unfold musicStep
  by_cases hc : (!truthy cm || f) = true
  · simp only [hc, if_true]
    cases mus with
    | none => rfl
    | some mr =>
      by_cases hm : mr.isEmpty = true
      · simp [hm]
      · cases w2 with
        | true => simp [hm]
        | false =>
          cases f <;>
            simp [hm, summaryAt_updateMusicCond, summaryAt_updateMusicUncond]
  · simp [hc]

theorem musicStep_snd_isSome (post_id : Nat) (d : Option String) (f : Bool)
    (cm : Option String) (mus : Option JsonObj) (w2 : Bool) (s : Store)
    (c : Option String) :
    ((musicStep post_id d f cm mus w2 s c).2).isSome = (!truthy cm || f) := by
  unfold musicStep
  by_cases hc : (!truthy cm || f) = true
  · simp only [hc, if_true]
    cases mus with
    | none => simp [hc]
    | some mr =>
      by_cases hm : mr.isEmpty = true
      · simp [hm, hc]
      · cases w2 with
        | true => simp [hm, hc]
        | false => cases f <;> simp [hm, hc] at hc ⊢
  · simp [hc]

theorem musicStep_snd_of_active (post_id : Nat) (d : Option String) (f : Bool)
    (cm : Option String) (mus : Option JsonObj) (w2 : Bool) (s : Store)
    (c : Option String) (hc : (!truthy cm || f) = true) :
    (musicStep post_id d f cm mus w2 s c).2
      = some (pyOrStr d (pyOrStr c "예술 작품")) := by
  unfold musicStep
  simp only [hc, if_true]
  cases mus with
  | none => rfl
  | some mr =>
    by_cases hm : mr.isEmpty = true
    · simp [hm]
    · cases w2 with
      | true => simp [hm]
      | false => cases f <;> simp [hm]

theorem musicStep_fst_of_none (post_id : Nat) (d : Option String) (f : Bool)
    (cm : Option String) (w2 : Bool) (s : Store) (c : Option String) :
    (musicStep post_id d f cm none w2 s c).1 = s := by
  by_cases hc : (!truthy cm || f) = true <;> simp [musicStep, hc]

theorem musicAt_musicStep_safe_preserved {post_id : Nat} {d : Option String}
    {cm : Option String} {mus : Option JsonObj} {w2 : Bool} {s : Store}
    {c : Option String} {b : String}
    (hb : musicAt s post_id = some (some b)) (hbne : (b == "") = false) :
    musicAt (musicStep post_id d false cm mus w2 s c).1 post_id = some (some b) := by
  unfold musicStep
  by_cases hc : (!truthy cm || false) = true
  · simp only [hc, if_true]
    cases mus with
    | none => exact hb
    | some mr =>
      by_cases hm : mr.isEmpty = true
      · simp [hm]; exact hb
      · cases w2 with
        | true => simp [hm]; exact hb
        | false =>
          simp only [hm, Bool.false_eq_true, if_false]
          rw [musicAt_updateMusicCond_self, hb]
          simp [sqlEmpty, hbne]
  · simp [hc]; exact hb

/-! ### Executor-level lemmas -/

theorem safe_call_preserves_summary {s : Store} {i : Nat} {d t : Option String}
    {vis mus : Option JsonObj} {w1 w2 : Bool} {b : String}
    (hb : summaryAt s i = some (some b)) (hbne : (b == "") = false) :
    summaryAt (process_ai_logic s i d t false vis mus w1 w2).1 i = some (some b) := by
  obtain ⟨p, hl, hpa⟩ : ∃ p, lookupPost s i = some p ∧ p.ai_summary = some b := by
    unfold summaryAt at hb
    cases hlk : lookupPost s i with
    | none => rw [hlk] at hb; exact absurd hb (by simp)
    | some p => rw [hlk] at hb; simp only [Option.map_some'] at hb; exact ⟨p, rfl, by injection hb⟩
  simp only [process_ai_logic, process_ai_logic_race, id_eq, hl]
  cases hvs : visionStep i false p.ai_summary vis w1 s with
  | error sA =>
    simp only [hvs]
    rw [visionStep_error_store hvs]
    exact hb
  | ok pr =>
    obtain ⟨s1, c'⟩ := pr
    simp only [hvs]
    rw [summaryAt_musicStep]
    exact summaryAt_visionStep_safe_preserved hvs hb hbne

theorem safe_call_preserves_music {s : Store} {i : Nat} {d t : Option String}
    {vis mus : Option JsonObj} {w1 w2 : Bool} {b : String}
    (hb : musicAt s i = some (some b)) (hbne : (b == "") = false) :
    musicAt (process_ai_logic s i d t false vis mus w1 w2).1 i = some (some b) := by
  obtain ⟨p, hl, hpm⟩ : ∃ p, lookupPost s i = some p ∧ p.music_prompt = some b := by
    unfold musicAt at hb
    cases hlk : lookupPost s i with
    | none => rw [hlk] at hb; exact absurd hb (by simp)
    | some p => rw [hlk] at hb; simp only [Option.map_some'] at hb; exact ⟨p, rfl, by injection hb⟩
  simp only [process_ai_logic, process_ai_logic_race, id_eq, hl]
  cases hvs : visionStep i false p.ai_summary vis w1 s with
  | error sA =>
    simp only [hvs]
    rw [visionStep_error_store hvs]
    exact hb
  | ok pr =>
    obtain ⟨s1, c'⟩ := pr
    simp only [hvs]
    have hm : musicAt s1 i = some (some b) := by
      rw [visionStep_ok_musicAt hvs i]; exact hb
    exact musicAt_musicStep_safe_preserved hm hbne

theorem enrichSeq_preserves_summary {i : Nat} {b : String} (calls : List CallArgs) :
    ∀ s : Store, summaryAt s i = some (some b) → (b == "") = false →
      summaryAt (enrichSeq s i calls) i = some (some b) := by
  induction calls with
  | nil => intro s hb _; exact hb
  | cons c rest ih =>
    intro s hb hbne
    exact ih _ (safe_call_preserves_summary hb hbne) hbne

theorem enrichSeq_preserves_music {i : Nat} {b : String} (calls : List CallArgs) :
    ∀ s : Store, musicAt s i = some (some b) → (b == "") = false →
      musicAt (enrichSeq s i calls) i = some (some b) := by
  induction calls with
  | nil => intro s hb _; exact hb
  | cons c rest ih =>
    intro s hb hbne
    exact ih _ (safe_call_preserves_music hb hbne) hbne

/-! ### Claim theorems -/

/-- C1: Safe-mode protection (Invariant I1).  For a record whose
`ai_summary` is non-empty (truthy) at the invocation-time read, any
number of `process_ai_logic` calls with `force_update=False` — with
arbitrary per-call descriptions, tags, Gemini results and write-failure
outcomes — leaves `ai_summary` byte-for-byte unchanged; likewise for
`music_prompt`.  Only `force_update=True` issues unconditional updates. -/
theorem c1_safe_mode_protection (s : Store) (i : Nat) (p : Post)
    (calls : List CallArgs) (hl : lookupPost s i = some p) :
    (truthy p.ai_summary = true →
      summaryAt (enrichSeq s i calls) i = some p.ai_summary)
    ∧ (truthy p.music_prompt = true →
      musicAt (enrichSeq s i calls) i = some p.music_prompt) := by
  constructor
  · intro ht
    obtain ⟨a, ha⟩ : ∃ a, p.ai_summary = some a := by
      cases hpa : p.ai_summary with
      | none => rw [hpa] at ht; exact absurd ht (by simp [truthy])
      | some a => exact ⟨a, rfl⟩
    have hbne : (a == "") = false := by
      rw [ha] at ht; simpa [truthy] using ht
    rw [ha]
    exact enrichSeq_preserves_summary calls s (by simp [summaryAt, hl, ha]) hbne
  · intro ht
    obtain ⟨a, ha⟩ : ∃ a, p.music_prompt = some a := by
      cases hpa : p.music_prompt with
      | none => rw [hpa] at ht; exact absurd ht (by simp [truthy])
      | some a => exact ⟨a, rfl⟩
    have hbne : (a == "") = false := by
      rw [ha] at ht; simpa [truthy] using ht
    rw [ha]
    exact enrichSeq_preserves_music calls s (by simp [musicAt, hl, ha]) hbne

/-- C1 witness: a store with both derived fields non-empty, hit twice
in safe mode by calls whose Gemini stubs return fresh values. -/
theorem c1_safe_mode_protection_witness :
    summaryAt (enrichSeq
        [(7, ⟨"u", "t", "a", none, none, none, none, some "old review",
              some "old prompt", none⟩)] 7
        [⟨none, none, some [("art_review", "NEW")],
          some [("music_prompt", "NEW")], false, false⟩,
         ⟨some "d", some "tg", some [("art_review", "NEW2")],
          some [("music_prompt", "NEW2")], false, false⟩]) 7
      = some (some "old review")
    ∧ musicAt (enrichSeq
        [(7, ⟨"u", "t", "a", none, none, none, none, some "old review",
              some "old prompt", none⟩)] 7
        [⟨none, none, some [("art_review", "NEW")],
          some [("music_prompt", "NEW")], false, false⟩,
         ⟨some "d", some "tg", some [("art_review", "NEW2")],
          some [("music_prompt", "NEW2")], false, false⟩]) 7
      = some (some "old prompt") :=
  ⟨(c1_safe_mode_protection _ 7
      ⟨"u", "t", "a", none, none, none, none, some "old review",
        some "old prompt", none⟩ _ (by decide)).1 (by decide),
   (c1_safe_mode_protection _ 7
      ⟨"u", "t", "a", none, none, none, none, some "old review",
        some "old prompt", none⟩ _ (by decide)).2 (by decide)⟩

/-- C2: Force always overwrites.  For any existing record and any prior
field contents, `process_ai_logic` with `force_update=True` and Gemini
stubs returning fixed values sets `ai_summary` and `music_prompt` to
those values via the unconditional `UPDATE` statements. -/
theorem c2_force_always_overwrites (s : Store) (i : Nat) (p : Post)
    (d t : Option String) (v1 v2 : String) (hl : lookupPost s i = some p) :
    summaryAt (process_ai_logic s i d t true (some [("art_review", v1)])
        (some [("music_prompt", v2)]) false false).1 i = some (some v1)
    ∧ musicAt (process_ai_logic s i d t true (some [("art_review", v1)])
        (some [("music_prompt", v2)]) false false).1 i = some (some v2) := by
  simp only [process_ai_logic, process_ai_logic_race, id_eq, hl]
  rw [visionStep_write_force i p.ai_summary [("art_review", v1)] s (by rfl)]
  simp only [jget, beq_self_eq_true, if_true, Option.getD_some]
  rw [musicStep_write_force i d p.music_prompt [("music_prompt", v2)] _ _ (by rfl)]
  simp only [jget, beq_self_eq_true, if_true]
  constructor
  · rw [summaryAt_updateMusicUncond, summaryAt_updateSummaryUncond_self]
    simp [summaryAt, hl]
  · rw [musicAt_updateMusicUncond_self, musicAt_updateSummaryUncond]
    simp [musicAt, hl]

/-- C2 witness: concrete record with both fields already non-empty,
overwritten by force mode. -/
theorem c2_force_always_overwrites_witness :
    summaryAt (process_ai_logic
        [(7, ⟨"u", "t", "a", none, none, none, none, some "old review",
              some "old prompt", none⟩)] 7 none none true
        (some [("art_review", "V1")]) (some [("music_prompt", "V2")])
        false false).1 7 = some (some "V1")
    ∧ musicAt (process_ai_logic
        [(7, ⟨"u", "t", "a", none, none, none, none, some "old review",
              some "old prompt", none⟩)] 7 none none true
        (some [("art_review", "V1")]) (some [("music_prompt", "V2")])
        false false).1 7 = some (some "V2") :=
  c2_force_always_overwrites _ 7
    ⟨"u", "t", "a", none, none, none, none, some "old review",
      some "old prompt", none⟩ none none "V1" "V2" (by decide)

/-- C8: Vanished record is a silent no-op.  If the id is absent at the
invocation-time read, `process_ai_logic` returns with the store
untouched and a trace showing no Gemini call on either step. -/
theorem c8_vanished_record_noop (s : Store) (i : Nat) (d t : Option String)
    (f : Bool) (vis mus : Option JsonObj) (w1 w2 : Bool)
    (hl : lookupPost s i = none) :
    process_ai_logic s i d t f vis mus w1 w2 = (s, ⟨false, false, none, none⟩) := by
  simp only [process_ai_logic, process_ai_logic_race, hl]

/-- C8 witness: id 42 absent from a one-record store. -/
theorem c8_vanished_record_noop_witness :
    process_ai_logic [(1, ⟨"u", "t", "a", none, none, none, none, none, none, none⟩)]
        42 none none true (some [("art_review", "V")]) (some [("music_prompt", "V")])
        false false
      = ([(1, ⟨"u", "t", "a", none, none, none, none, none, none, none⟩)],
         ⟨false, false, none, none⟩) :=
  c8_vanished_record_noop _ 42 none none true _ _ false false (by decide)

/-- C3: Atomic conditional safe-mode write.  The safe-mode write is the
single conditional `UPDATE ... WHERE id = %s AND (field IS NULL OR
field = '')`, whose predicate is evaluated against the store state at
write time.  If a concurrent writer (`f1` before the summary write,
`f2` before the music write) has made the field non-empty since the
invocation-time read, the conditional update changes zero rows and the
concurrently written value is preserved. -/
theorem c3_atomic_conditional_write (s : Store) (i : Nat) (p : Post)
    (d t : Option String) (vis mus : Option JsonObj) (w1 w2 : Bool)
    (hl : lookupPost s i = some p) :
    (∀ (f1 : Store → Store) (b : String),
      summaryAt (f1 s) i = some (some b) → (b == "") = false →
      summaryAt (process_ai_logic_race f1 id s i d t false vis mus w1 w2).1 i
        = some (some b))
    ∧ (truthy p.ai_summary = true →
      ∀ (f2 : Store → Store) (b : String),
        musicAt (f2 s) i = some (some b) → (b == "") = false →
        musicAt (process_ai_logic_race id f2 s i d t false vis mus w1 w2).1 i
          = some (some b)) := by
  constructor
  · intro f1 b hb hbne
    simp only [process_ai_logic_race, id_eq, hl]
    cases hvs : visionStep i false p.ai_summary vis w1 (f1 s) with
    | error sA =>
      simp only [hvs]
      rw [visionStep_error_store hvs]
      exact hb
    | ok pr =>
      obtain ⟨s1, c'⟩ := pr
      simp only [hvs]
      rw [summaryAt_musicStep]
      exact summaryAt_visionStep_safe_preserved hvs hb hbne
  · intro ht f2 b hb hbne
    simp only [process_ai_logic_race, id_eq, hl]
    rw [visionStep_skip i p.ai_summary vis w1 s ht]
    exact musicAt_musicStep_safe_preserved hb hbne

/-- C3 witness: a concurrent writer fills the summary (resp. the music
prompt) between the read and the safe-mode write; the conditional
update preserves the concurrently written value. -/
theorem c3_atomic_conditional_write_witness :
    summaryAt (process_ai_logic_race
        (fun _ => [(1, ⟨"u", "t", "a", none, none, none, none, some "B", none, none⟩)])
        id [(1, ⟨"u", "t", "a", none, none, none, none, none, none, none⟩)] 1
        none none false (some [("art_review", "A")]) none false false).1 1
      = some (some "B")
    ∧ musicAt (process_ai_logic_race id
        (fun _ => [(1, ⟨"u", "t", "a", none, none, none, none, some "A", some "C", none⟩)])
        [(1, ⟨"u", "t", "a", none, none, none, none, some "A", none, none⟩)] 1
        none none false none (some [("music_prompt", "M")]) false false).1 1
      = some (some "C") :=
  ⟨(c3_atomic_conditional_write
      [(1, ⟨"u", "t", "a", none, none, none, none, none, none, none⟩)] 1
      ⟨"u", "t", "a", none, none, none, none, none, none, none⟩
      none none (some [("art_review", "A")]) none false false (by decide)).1
      (fun _ => [(1, ⟨"u", "t", "a", none, none, none, none, some "B", none, none⟩)])
      "B" (by decide) (by decide),
   (c3_atomic_conditional_write
      [(1, ⟨"u", "t", "a", none, none, none, none, some "A", none, none⟩)] 1
      ⟨"u", "t", "a", none, none, none, none, some "A", none, none⟩
      none none none (some [("music_prompt", "M")]) false false (by decide)).2
      (by decide)
      (fun _ => [(1, ⟨"u", "t", "a", none, none, none, none, some "A", some "C", none⟩)])
      "C" (by decide) (by decide)⟩

/-- C7 counterexample: with `ai_summary` and `music_prompt` both empty
and working Gemini stubs, a store-write failure on the summary write
(`wfail1`) aborts the invocation — `run_gemini_vision` was called but
the music-prompt step is never attempted, refuting the claim that a
store-write failure on the summary field does not prevent the attempt
on the music-prompt field. -/
theorem c7_store_write_failure_blocks_music_cex :
    truthy (Post.music_prompt
        ⟨"u", "t", "a", none, none, none, none, none, none, none⟩) = false
    ∧ (process_ai_logic
        [(1, ⟨"u", "t", "a", none, none, none, none, none, none, none⟩)] 1
        none none false (some [("art_review", "A")])
        (some [("music_prompt", "M")]) true false).2.visionCalled = true
    ∧ (process_ai_logic
        [(1, ⟨"u", "t", "a", none, none, none, none, none, none, none⟩)] 1
        none none false (some [("art_review", "A")])
        (some [("music_prompt", "M")]) true false).2.musicCalled = false := by
  decide

/-- C7 (amended): a Gemini failure (`run_gemini_vision` returns `None`)
or a Guard skip (non-empty summary in safe mode) on the summary field
does not prevent the attempt on the music-prompt field: the music
adapter is called exactly when its own branch condition holds, and the
single `try/except` around the body means no exception propagates out
of `process_ai_logic`.  (A store-write failure during the summary
write, by contrast, aborts the body and skips the music step — see the
counterexample.) -/
theorem c7_fault_isolation_amended (s : Store) (i : Nat) (p : Post)
    (d t : Option String) (f : Bool) (vis mus : Option JsonObj) (w1 w2 : Bool)
    (hl : lookupPost s i = some p)
    (h : vis = none ∨ (truthy p.ai_summary = true ∧ f = false)) :
    (process_ai_logic s i d t f vis mus w1 w2).2.musicCalled
      = (!truthy p.music_prompt || f) := by
  simp only [process_ai_logic, process_ai_logic_race, id_eq, hl]
  rcases h with rfl | ⟨ht, rfl⟩
  · rw [visionStep_none]
    exact musicStep_snd_isSome i d f p.music_prompt mus w2 s p.ai_summary
  · rw [visionStep_skip i p.ai_summary vis w1 s ht]
    exact musicStep_snd_isSome i d false p.music_prompt mus w2 s p.ai_summary

/-- C7 witness: vision adapter fails, both write sites would fail, yet
the music step is still attempted. -/
theorem c7_fault_isolation_amended_witness :
    (process_ai_logic
        [(1, ⟨"u", "t", "a", none, none, none, none, none, none, none⟩)] 1
        none none false none (some [("music_prompt", "M")]) true true).2.musicCalled
      = true :=
  c7_fault_isolation_amended
    [(1, ⟨"u", "t", "a", none, none, none, none, none, none, none⟩)] 1
    ⟨"u", "t", "a", none, none, none, none, none, none, none⟩
    none none false none (some [("music_prompt", "M")]) true true
    (by decide) (Or.inl rfl)

/-- C4 counterexample: a record with no description, no summary
(vision fails) and `tags="abstract, blue"` passes the generic fallback
string `"예술 작품"` — not the tags — as the prompt-synthesis source
text: tags are not part of the `desc_text` chain. -/
theorem c4_tags_not_in_source_chain_cex :
    (process_ai_logic
        [(1, ⟨"u", "t", "a", none, none, none, some "abstract, blue", none, none, none⟩)]
        1 none (some "abstract, blue") false none none false false).2.musicSource
      = some "예술 작품"
    ∧ ("예술 작품" : String) ≠ "abstract, blue" := by
  constructor
  · decide
  · decide

/-- C4 (amended): the prompt-synthesis source text `desc_text` is
computed as `description or summary or "예술 작품"`: the explicit user
description if non-empty, else the summary just read (first conjunct)
or just computed (second conjunct), else the fixed generic fallback
string — tags never enter this chain; they are passed separately as
the `tag_text` argument (`tags or ""`) of `run_gemini_music` (third
conjunct). -/
theorem c4_source_text_chain_amended (s : Store) (i : Nat) (p : Post)
    (d tg : Option String) (mus : Option JsonObj) (w1 w2 : Bool)
    (hl : lookupPost s i = some p) (hm : truthy p.music_prompt = false) :
    (∀ (vis : Option JsonObj) (w1' : Bool), truthy p.ai_summary = true →
      (process_ai_logic s i d tg false vis mus w1' w2).2.musicSource
        = some (pyOrStr d (pyOrStr p.ai_summary "예술 작품")))
    ∧ (∀ c : String, truthy p.ai_summary = false →
      (process_ai_logic s i d tg false (some [("art_review", c)]) mus
          false w2).2.musicSource
        = some (pyOrStr d (pyOrStr (some c) "예술 작품")))
    ∧ (∀ vis : Option JsonObj,
      (process_ai_logic s i d tg false vis mus w1 w2).2.musicTags
        = ((process_ai_logic s i d tg false vis mus w1 w2).2.musicSource).map
            (fun _ => pyOrStr tg "")) := by
  refine ⟨?_, ?_, ?_⟩
  · intro vis w1' ht
    simp only [process_ai_logic, process_ai_logic_race, id_eq, hl]
    rw [visionStep_skip i p.ai_summary vis w1' s ht]
    exact musicStep_snd_of_active i d false p.music_prompt mus w2 s p.ai_summary
      (by simp [hm])
  · intro c hta
    simp only [process_ai_logic, process_ai_logic_race, id_eq, hl]
    rw [visionStep_write_safe i p.ai_summary [("art_review", c)] s hta (by rfl)]
    simp only [jget, beq_self_eq_true, if_true, Option.getD_some]
    exact musicStep_snd_of_active i d false p.music_prompt mus w2 _ (some c)
      (by simp [hm])
  · intro vis
    simp only [process_ai_logic, process_ai_logic_race, id_eq, hl]
    cases hvs : visionStep i false p.ai_summary vis w1 s with
    | error sA => simp [hvs]
    | ok pr =>
      obtain ⟨s1, c'⟩ := pr
      simp [hvs]

/-- C4 witness: existing summary preferred over the fallback; fresh
summary likewise used as source. -/
theorem c4_source_text_chain_amended_witness :
    (process_ai_logic
        [(1, ⟨"u", "t", "a", none, none, none, some "tg", some "S", none, none⟩)]
        1 none (some "tg") false none none false false).2.musicSource = some "S"
    ∧ (process_ai_logic
        [(2, ⟨"u", "t", "a", none, none, none, none, none, none, none⟩)]
        2 none none false (some [("art_review", "C")]) none false false).2.musicSource
      = some "C" :=
  ⟨(c4_source_text_chain_amended
      [(1, ⟨"u", "t", "a", none, none, none, some "tg", some "S", none, none⟩)] 1
      ⟨"u", "t", "a", none, none, none, some "tg", some "S", none, none⟩
      none (some "tg") none false false (by decide) (by decide)).1
      none false (by decide),
   (c4_source_text_chain_amended
      [(2, ⟨"u", "t", "a", none, none, none, none, none, none, none⟩)] 2
      ⟨"u", "t", "a", none, none, none, none, none, none, none⟩
      none none none false false (by decide) (by decide)).2.1
      "C" (by decide)⟩

/-- C5 counterexample: a record with `description=None`, `tags=None`,
no summary (vision fails) and no music prompt: `run_gemini_music` IS
called (with the generic fallback source), and when it succeeds the
music prompt is written — it does not remain NULL. -/
theorem c5_no_source_still_calls_gateway_cex :
    (process_ai_logic
        [(1, ⟨"u", "t", "a", none, none, none, none, none, none, none⟩)] 1
        none none false none (some [("music_prompt", "V")]) false false).2.musicCalled
      = true
    ∧ musicAt (process_ai_logic
        [(1, ⟨"u", "t", "a", none, none, none, none, none, none, none⟩)] 1
        none none false none (some [("music_prompt", "V")]) false false).1 1
      = some (some "V") := by
  decide

/-- C5 (amended): for a record with `description=None`, `tags=None`, a
NULL summary with failing vision call, and a NULL music prompt,
`process_ai_logic(..., force=False)` still attempts the prompt-synthesis
Gemini call, with the generic fallback `"예술 작품"` as source text;
`music_prompt` stays NULL only when that call fails (store unchanged),
and is set to the returned `music_prompt` value when it succeeds. -/
theorem c5_skip_with_no_source_amended (s : Store) (i : Nat) (p : Post)
    (mus : Option JsonObj) (w2 : Bool) (hl : lookupPost s i = some p)
    (hpa : p.ai_summary = none) (hpm : p.music_prompt = none) :
    ((process_ai_logic s i none none false none mus false w2).2.musicCalled = true)
    ∧ ((process_ai_logic s i none none false none mus false w2).2.musicSource
        = some "예술 작품")
    ∧ (mus = none → (process_ai_logic s i none none false none mus false w2).1 = s)
    ∧ (∀ v : String, w2 = false → mus = some [("music_prompt", v)] →
        musicAt (process_ai_logic s i none none false none mus false w2).1 i
          = some (some v)) := by
  refine ⟨?_, ?_, ?_, ?_⟩
  · simp only [process_ai_logic, process_ai_logic_race, id_eq, hl, visionStep_none]
    rw [musicStep_snd_isSome]
    simp [hpm, truthy]
  · simp only [process_ai_logic, process_ai_logic_race, id_eq, hl, visionStep_none]
    rw [musicStep_snd_of_active i none false p.music_prompt mus w2 s p.ai_summary
      (by simp [hpm, truthy])]
    rw [hpa]
    rfl
  · rintro rfl
    simp only [process_ai_logic, process_ai_logic_race, id_eq, hl, visionStep_none]
    exact musicStep_fst_of_none i none false p.music_prompt w2 s p.ai_summary
  · rintro v rfl rfl
    simp only [process_ai_logic, process_ai_logic_race, id_eq, hl, visionStep_none]
    rw [musicStep_write_safe i none p.music_prompt [("music_prompt", v)] s
      p.ai_summary (by simp [hpm, truthy]) (by rfl)]
    simp only [jget, beq_self_eq_true, if_true]
    rw [musicAt_updateMusicCond_self]
    simp [musicAt, hl, hpm, sqlEmpty]

/-- C5 witness: concrete all-empty record, music stub succeeding. -/
theorem c5_skip_with_no_source_amended_witness :
    (process_ai_logic
        [(3, ⟨"u", "t", "a", none, none, none, none, none, none, none⟩)] 3
        none none false none none false false).2.musicSource = some "예술 작품"
    ∧ musicAt (process_ai_logic
        [(3, ⟨"u", "t", "a", none, none, none, none, none, none, none⟩)] 3
        none none false none (some [("music_prompt", "W")]) false false).1 3
      = some (some "W") :=
  ⟨(c5_skip_with_no_source_amended
      [(3, ⟨"u", "t", "a", none, none, none, none, none, none, none⟩)] 3
      ⟨"u", "t", "a", none, none, none, none, none, none, none⟩
      none false (by decide) (by decide) (by decide)).2.1,
   (c5_skip_with_no_source_amended
      [(3, ⟨"u", "t", "a", none, none, none, none, none, none, none⟩)] 3
      ⟨"u", "t", "a", none, none, none, none, none, none, none⟩
      (some [("music_prompt", "W")]) false (by decide) (by decide)
      (by decide)).2.2.2 "W" rfl rfl⟩

/-- C6 counterexample: a parsed vision response missing the
`art_review` key is not treated as total failure: `.get('art_review',
'')` substitutes `''` and a write occurs, here (force mode) destroying
the previous non-empty summary. -/
theorem c6_missing_key_still_writes_cex :
    summaryAt (process_ai_logic
        [(7, ⟨"u", "t", "a", none, none, none, none, some "old review",
              some "old prompt", none⟩)] 7 none none true
        (some [("artist_intro", "x")]) none false false).1 7
      = some (some "")
    ∧ Post.ai_summary
        ⟨"u", "t", "a", none, none, none, none, some "old review",
          some "old prompt", none⟩ = some "old review" := by
  decide

/-- C6 (amended): a Gemini response that cannot be parsed (the adapter
returns `None`) is a total failure of that call — no derived-field
write occurs (first conjunct, both calls failing leave the store
untouched).  But a parsed response missing the expected key is not:
visual analysis substitutes `''` for a missing `art_review` and writes
it (second conjunct), and prompt synthesis obtains `None` for a missing
`music_prompt` and writes SQL NULL (third conjunct). -/
theorem c6_gateway_failure_semantics_amended (s : Store) (i : Nat) (p : Post)
    (d t : Option String) (f : Bool) (w1 w2 : Bool)
    (hl : lookupPost s i = some p) :
    ((process_ai_logic s i d t f none none w1 w2).1 = s)
    ∧ (∀ vr : JsonObj, vr.isEmpty = false → jget vr "art_review" = none →
        summaryAt (process_ai_logic s i d t true (some vr) none false w2).1 i
          = some (some ""))
    ∧ (∀ mr : JsonObj, mr.isEmpty = false → jget mr "music_prompt" = none →
        musicAt (process_ai_logic s i d t true none (some mr) false false).1 i
          = some none) := by
  refine ⟨?_, ?_, ?_⟩
  · simp only [process_ai_logic, process_ai_logic_race, id_eq, hl, visionStep_none]
    exact musicStep_fst_of_none i d f p.music_prompt w1 s p.ai_summary
  · intro vr hvr hkey
    simp only [process_ai_logic, process_ai_logic_race, id_eq, hl]
    simp only [visionStep_write_force i p.ai_summary vr s hvr]
    simp only [hkey, Option.getD_none]
    rw [summaryAt_musicStep, summaryAt_updateSummaryUncond_self]
    simp [summaryAt, hl]
  · intro mr hmr hkey
    simp only [process_ai_logic, process_ai_logic_race, id_eq, hl, visionStep_none]
    rw [musicStep_write_force i d p.music_prompt mr s p.ai_summary hmr]
    rw [hkey, musicAt_updateMusicUncond_self]
    simp [musicAt, hl]

/-- C6 witness: parse failure leaves the store untouched; a response
missing `art_review` writes `''`; a response missing `music_prompt`
writes NULL. -/
theorem c6_gateway_failure_semantics_amended_witness :
    (process_ai_logic
        [(7, ⟨"u", "t", "a", none, none, none, none, some "r", some "m", none⟩)]
        7 none none true none none true true).1
      = [(7, ⟨"u", "t", "a", none, none, none, none, some "r", some "m", none⟩)]
    ∧ summaryAt (process_ai_logic
        [(7, ⟨"u", "t", "a", none, none, none, none, some "r", some "m", none⟩)]
        7 none none true (some [("artist_intro", "x")]) none false true).1 7
      = some (some "")
    ∧ musicAt (process_ai_logic
        [(7, ⟨"u", "t", "a", none, none, none, none, some "r", some "m", none⟩)]
        7 none none true none (some [("mood", "calm")]) false false).1 7
      = some none :=
  ⟨(c6_gateway_failure_semantics_amended
      [(7, ⟨"u", "t", "a", none, none, none, none, some "r", some "m", none⟩)] 7
      ⟨"u", "t", "a", none, none, none, none, some "r", some "m", none⟩
      none none true true true (by decide)).1,
   (c6_gateway_failure_semantics_amended
      [(7, ⟨"u", "t", "a", none, none, none, none, some "r", some "m", none⟩)] 7
      ⟨"u", "t", "a", none, none, none, none, some "r", some "m", none⟩
      none none true true true (by decide)).2.1
      [("artist_intro", "x")] (by decide) (by decide),
   (c6_gateway_failure_semantics_amended
      [(7, ⟨"u", "t", "a", none, none, none, none, some "r", some "m", none⟩)] 7
      ⟨"u", "t", "a", none, none, none, none, some "r", some "m", none⟩
      none none true true true (by decide)).2.2
      [("mood", "calm")] (by decide) (by decide)⟩

/-! ### Sweep-level lemmas -/

theorem sweepFold_attempts (O : Nat → Env) (l : List (Nat × Post)) :
    ∀ acc : Store × List (Nat × Trace),
      ((sweepFold O acc l).2).map Prod.fst = acc.2.map Prod.fst ++ l.map Prod.fst := by
  induction l with
  | nil => intro acc; simp [sweepFold]
  | cons r rest ih =>
    intro acc
    simp only [sweepFold]
    rw [ih]
    simp

theorem mem_keys_nodup_unique {s : Store} {k : Nat} {a b : Post}
    (hnd : (s.map Prod.fst).Nodup) (ha : (k, a) ∈ s) (hb : (k, b) ∈ s) : a = b := by
  induction s with
  | nil => cases ha
  | cons r rest ih =>
    simp only [List.map_cons, List.nodup_cons] at hnd
    obtain ⟨hk, hnd'⟩ := hnd
    cases ha with
    | head =>
      cases hb with
      | head => rfl
      | tail _ hb' =>
        exact absurd (List.mem_map_of_mem Prod.fst hb') (by simpa using hk)
    | tail _ ha' =>
      cases hb with
      | head =>
        exact absurd (List.mem_map_of_mem Prod.fst ha') (by simpa using hk)
      | tail _ hb' => exact ih hnd' ha' hb'

/-- C9: Per-record fault isolation in a sweep batch.  Both sweep paths
(the `POST /posts/sync-ai` endpoint and the periodic 30-second loop)
select exactly the rows with a NULL derived field and invoke
`process_ai_logic(..., False)` on every one of them: the list of
attempted record ids equals the selected ids for EVERY oracle `O` —
in particular for oracles under which some records' Gemini calls or
store writes always fail — so one failing record never aborts or
prevents the attempts on the rest of the batch. -/
theorem c9_sweep_fault_isolation (s : Store) (O : Nat → Env) :
    ((sync_missing_ai_data s O).2).map Prod.fst = (sweepSelect s).map Prod.fst
    ∧ ((periodic_sync_cycle s O).2).map Prod.fst = (sweepSelect s).map Prod.fst := by
  constructor <;>
    simp [sync_missing_ai_data, periodic_sync_cycle, sweepOnce, sweepFold_attempts]

/-- C10: Sweep blind spot for empty strings.  A record whose
`ai_summary` holds `''` (non-NULL) while `music_prompt` is non-NULL is
never selected by a sweep cycle (whose query tests `IS NULL` only) and
never has enrichment re-invoked on it, even though the safe-mode write
predicate `ai_summary IS NULL OR ai_summary = ''` would permit a write
to that field. -/
theorem c10_sweep_blind_spot (s : Store) (i : Nat) (p : Post) (m : String)
    (O : Nat → Env) (hnd : (s.map Prod.fst).Nodup) (hmem : (i, p) ∈ s)
    (hsum : p.ai_summary = some "") (hmus : p.music_prompt = some m) :
    (i, p) ∉ sweepSelect s
    ∧ i ∉ ((sweepOnce s O).2).map Prod.fst
    ∧ sqlEmpty p.ai_summary = true := by
  have hpred : (p.ai_summary.isNone || p.music_prompt.isNone) = false := by
    rw [hsum, hmus]; rfl
  refine ⟨?_, ?_, by rw [hsum]; rfl⟩
  · intro hin
    have hp := (List.mem_filter.mp hin).2
    rw [hpred] at hp
    exact absurd hp (by simp)
  · intro hin
    rw [sweepOnce, sweepFold_attempts] at hin
    simp only [List.map_nil, List.nil_append] at hin
    obtain ⟨r, hr, hr1⟩ := List.mem_map.mp hin
    have hrs : (i, r.2) ∈ s := by
      rw [← hr1]
      exact (List.mem_filter.mp hr).1
    have hrp := (List.mem_filter.mp hr).2
    have hre : r.2 = p := mem_keys_nodup_unique hnd hrs hmem
    rw [hre, hpred] at hrp
    exact absurd hrp (by simp)

/-- C10 witness: a record with `ai_summary=''` and a non-null
`music_prompt`, alongside a normal empty record, under an
always-failing oracle. -/
theorem c10_sweep_blind_spot_witness :
    (1, (⟨"u", "t", "a", none, none, none, none, some "", some "x", none⟩ : Post))
        ∉ sweepSelect
          [(1, ⟨"u", "t", "a", none, none, none, none, some "", some "x", none⟩),
           (2, ⟨"u", "t", "a", none, none, none, none, none, none, none⟩)]
    ∧ 1 ∉ ((sweepOnce
          [(1, ⟨"u", "t", "a", none, none, none, none, some "", some "x", none⟩),
           (2, ⟨"u", "t", "a", none, none, none, none, none, none, none⟩)]
          (fun _ => ⟨none, none, false, false⟩)).2).map Prod.fst
    ∧ sqlEmpty (Post.ai_summary
        ⟨"u", "t", "a", none, none, none, none, some "", some "x", none⟩) = true :=
  c10_sweep_blind_spot
    [(1, ⟨"u", "t", "a", none, none, none, none, some "", some "x", none⟩),
     (2, ⟨"u", "t", "a", none, none, none, none, none, none, none⟩)]
    1 ⟨"u", "t", "a", none, none, none, none, some "", some "x", none⟩ "x"
    (fun _ => ⟨none, none, false, false⟩)
    (by decide) (by decide) (by decide) (by decide)

end ArtApp
